import Mathlib

/-!
Shallow embedding of `kodicontroller.py` (davgeo/kodicontroller).

The embedding covers the parts of the module the verified claims are about:
the decorators `CheckServerValid`, `GetActivePlayer`, `GetPlaylists`, the
thumbnail cache `GetThumbnail`, the resume normalizer `GetResumePercent`,
and the undecorated `Files_GetDirectory`.

Python exceptions are modelled with `Except`; the filesystem is an explicit
state (`FS`) threaded through `getThumbnail`, together with a trace of the
filesystem/network operations performed (`Effect`).  Python floats are
modelled as exact rationals (`Rat`); machine words inside MD5 are `Nat`
reduced mod 2^32.
-/

set_option maxRecDepth 8000

deriving instance DecidableEq for Except

namespace Kodi

/-- Python exception kinds that the embedded code can raise. -/
inductive PyError
  | keyError
  | unboundLocal
  | attributeError
  | transportError
  | fetchError
  | cacheDirNotDir
  | notFound
  deriving DecidableEq

/-- The bound JSON-RPC client (`kodijsonrpc.KodiJSONClient`): only its `url`
field is read by the embedded code. -/
structure Server where
  url : String
  deriving DecidableEq

/-- A `KodiController` instance: `server` (`None` = unbound transport),
`auth` credentials, and the optional thumbnail cache directory. -/
structure Session where
  server : Option Server
  auth : Option (String × String)
  cacheDir : Option String
  deriving DecidableEq

/-! ### UTF-8 encoding (`str.encode()`) -/

/-- UTF-8 bytes of a single character. -/
def utf8Char (c : Char) : List Nat :=
  let n := c.toNat
  if n < 128 then [n]
  else if n < 2048 then [192 + n / 64, 128 + n % 64]
  else if n < 65536 then [224 + n / 4096, 128 + (n / 64) % 64, 128 + n % 64]
  else [240 + n / 262144, 128 + (n / 4096) % 64, 128 + (n / 64) % 64, 128 + n % 64]

/-- UTF-8 encoding of a string, as in Python's `str.encode()`. -/
def utf8Bytes (s : String) : List Nat :=
  s.data.foldr (fun c acc => utf8Char c ++ acc) []

/-! ### MD5 (`hashlib.md5`), words as `Nat` mod 2^32 -/

/-- Addition of 32-bit words. -/
def wadd (a b : Nat) : Nat := (a + b) % 4294967296

/-- 32-bit complement. -/
def wnot (a : Nat) : Nat := 4294967295 - a

/-- Rotate a 32-bit word left by `s` bits. -/
def rotl (x s : Nat) : Nat := ((x <<< s) % 4294967296) + (x >>> (32 - s))

/-- The 64 MD5 round constants (floor(abs(sin(i+1)) * 2^32)). -/
def mdK : List Nat :=
  [3614090360, 3905402710, 606105819, 3250441966, 4118548399, 1200080426,
   2821735955, 4249261313, 1770035416, 2336552879, 4294925233, 2304563134,
   1804603682, 4254626195, 2792965006, 1236535329, 4129170786, 3225465664,
   643717713, 3921069994, 3593408605, 38016083, 3634488961, 3889429448,
   568446438, 3275163606, 4107603335, 1163531501, 2850285829, 4243563512,
   1735328473, 2368359562, 4294588738, 2272392833, 1839030562, 4259657740,
   2763975236, 1272893353, 4139469664, 3200236656, 681279174, 3936430074,
   3572445317, 76029189, 3654602809, 3873151461, 530742520, 3299628645,
   4096336452, 1126891415, 2878612391, 4237533241, 1700485571, 2399980690,
   4293915773, 2240044497, 1873313359, 4264355552, 2734768916, 1309151649,
   4149444226, 3174756917, 718787259, 3951481745]

/-- The MD5 per-round left-rotation amounts. -/
def mdS : List Nat :=
  [7, 12, 17, 22, 7, 12, 17, 22, 7, 12, 17, 22, 7, 12, 17, 22,
   5, 9, 14, 20, 5, 9, 14, 20, 5, 9, 14, 20, 5, 9, 14, 20,
   4, 11, 16, 23, 4, 11, 16, 23, 4, 11, 16, 23, 4, 11, 16, 23,
   6, 10, 15, 21, 6, 10, 15, 21, 6, 10, 15, 21, 6, 10, 15, 21]

/-- The MD5 nonlinear function for round `i`. -/
def md5F (i b c d : Nat) : Nat :=
  if i < 16 then (b.land c).lor ((wnot b).land d)
  else if i < 32 then (b.land d).lor (c.land (wnot d))
  else if i < 48 then (b.xor c).xor d
  else c.xor (b.lor (wnot d))

/-- The MD5 message-word index for round `i`. -/
def md5G (i : Nat) : Nat :=
  if i < 16 then i
  else if i < 32 then (5 * i + 1) % 16
  else if i < 48 then (3 * i + 5) % 16
  else (7 * i) % 16

/-- One MD5 round on state `(a, b, c, d)` with message words `m`. -/
def md5Round (m : List Nat) (st : Nat × Nat × Nat × Nat) (i : Nat) :
    Nat × Nat × Nat × Nat :=
  let (a, b, c, d) := st
  let f := wadd (wadd a (md5F i b c d)) (wadd (mdK.getD i 0) (m.getD (md5G i) 0))
  (d, wadd b (rotl f (mdS.getD i 0)), b, c)

/-- Process one 16-word block. -/
def md5Block (st : Nat × Nat × Nat × Nat) (m : List Nat) :
    Nat × Nat × Nat × Nat :=
  let (a2, b2, c2, d2) := (List.range 64).foldl (md5Round m) st
  (wadd st.1 a2, wadd st.2.1 b2, wadd st.2.2.1 c2, wadd st.2.2.2 d2)

/-- Group bytes into little-endian 32-bit words. -/
def toWordsLE : List Nat → List Nat
  | b0 :: b1 :: b2 :: b3 :: rest =>
      (b0 + 256 * b1 + 65536 * b2 + 16777216 * b3) :: toWordsLE rest
  | _ => []

/-- Split a word list into chunks of 16 (fuelled recursion). -/
def chunksOf16 : Nat → List Nat → List (List Nat)
  | 0, _ => []
  | _, [] => []
  | fuel + 1, ws => ws.take 16 :: chunksOf16 fuel (ws.drop 16)

/-- `count` little-endian bytes of `n`. -/
def leBytes (n : Nat) : Nat → List Nat
  | 0 => []
  | c + 1 => (n % 256) :: leBytes (n / 256) c

/-- MD5 padding: a 0x80 byte, zeros to 56 mod 64, then the 64-bit bit length. -/
def md5Pad (msg : List Nat) : List Nat :=
  msg ++ [128] ++ List.replicate ((119 - msg.length % 64) % 64) 0
      ++ leBytes (msg.length * 8) 8

/-- The MD5 initial state. -/
def md5Init : Nat × Nat × Nat × Nat :=
  (1732584193, 4023233417, 2562383102, 271733878)

/-- MD5 digest (16 bytes) of a byte list. -/
def md5Bytes (msg : List Nat) : List Nat :=
  let ws := toWordsLE (md5Pad msg)
  let r := (chunksOf16 ws.length ws).foldl md5Block md5Init
  leBytes r.1 4 ++ leBytes r.2.1 4 ++ leBytes r.2.2.1 4 ++ leBytes r.2.2.2 4

/-- Lower-case hex digit. -/
def hexDigit (n : Nat) : Char :=
  if n < 10 then Char.ofNat (48 + n) else Char.ofNat (87 + n)

/-- Lower-case hex rendering of a byte list. -/
def bytesToHex (bs : List Nat) : List Char :=
  bs.foldr (fun b acc => hexDigit (b / 16) :: hexDigit (b % 16) :: acc) []

/-- `hashlib.md5(s.encode()).hexdigest()`. -/
def md5hex (s : String) : String :=
  ⟨bytesToHex (md5Bytes (utf8Bytes s))⟩

/-! ### String helpers: `str.strip`, `os.path.splitext`, `urllib.parse.quote_plus` -/

/-- Whether a character is a '/' (the strip set used by `thumbnail.strip` in
`GetThumbnail`). -/
def isSlash (c : Char) : Bool := c = '/'

/-- Strip leading and trailing '/' runs from a character list. -/
def stripSlashList (l : List Char) : List Char :=
  ((l.dropWhile isSlash).reverse.dropWhile isSlash).reverse

/-- Python's `s.strip` with the single strip character '/'. -/
def stripSlashes (s : String) : String :=
  ⟨stripSlashList s.data⟩

/-- The extension component of `os.path.splitext`: everything from the last
'.' of the basename, provided that dot is preceded inside the basename by
some non-dot character (so leading dots do not start an extension). -/
def splitextExtList (l : List Char) : List Char :=
  let base := (l.reverse.takeWhile (fun c => c ≠ '/')).reverse
  let revBase := base.reverse
  let afterDot := revBase.takeWhile (fun c => c ≠ '.')
  match revBase.drop afterDot.length with
  | [] => []
  | _ :: before =>
      if before.any (fun c => c ≠ '.') then '.' :: afterDot.reverse else []

/-- `os.path.splitext(s)[1]`. -/
def splitextExt (s : String) : String :=
  ⟨splitextExtList s.data⟩

/-- Upper-case hex digit, as produced by `urllib.parse.quote`. -/
def hexDigitUpper (n : Nat) : Char :=
  if n < 10 then Char.ofNat (48 + n) else Char.ofNat (55 + n)

/-- Bytes left untouched by `urllib.parse.quote`: ASCII letters, digits,
and `_ . - ~`. -/
def isSafeByte (b : Nat) : Bool :=
  (65 ≤ b && b ≤ 90) || (97 ≤ b && b ≤ 122) || (48 ≤ b && b ≤ 57) ||
    b = 95 || b = 46 || b = 45 || b = 126

/-- `urllib.parse.quote_plus` on one byte: safe bytes unchanged, a space
becomes '+', everything else percent-encoded in upper-case hex. -/
def quoteByte (b : Nat) : List Char :=
  if isSafeByte b then [Char.ofNat b]
  else if b = 32 then ['+']
  else ['%', hexDigitUpper (b / 16), hexDigitUpper (b % 16)]

/-- `urllib.parse.quote_plus`. -/
def quotePlus (s : String) : String :=
  ⟨(utf8Bytes s).foldr (fun b acc => quoteByte b ++ acc) []⟩

/-! ### Filesystem state and effect trace -/

/-- Filesystem/network operations performed by `GetThumbnail`, in order. -/
inductive Effect
  | existsCheck (path : String)
  | mkdir (path : String)
  | isDirCheck (path : String)
  | fetch (url : String)
  | write (path : String)
  deriving DecidableEq

/-- The filesystem: regular files with their byte contents, and directories. -/
structure FS where
  files : List (String × List Nat)
  dirs : List String
  deriving DecidableEq

/-- `os.path.exists`: true for files and directories. -/
def FS.existsPath (fs : FS) (p : String) : Bool :=
  fs.files.any (fun f => f.1 = p) || fs.dirs.any (fun d => d = p)

/-- `os.path.isdir`. -/
def FS.isDir (fs : FS) (p : String) : Bool :=
  fs.dirs.any (fun d => d = p)

/-- `open(p, 'wb')` followed by writing `b`: create or truncate. -/
def FS.writeFile (fs : FS) (p : String) (b : List Nat) : FS :=
  ⟨(p, b) :: fs.files.filter (fun f => f.1 ≠ p), fs.dirs⟩

/-- Outcome of `requests.get(url, stream=True)` plus the streaming copy:
either the full body, a failure before the output file is opened
(`requests.get` itself raises), or a failure in mid-stream after `part` bytes
were already written to the output file. -/
inductive FetchOutcome
  | ok (bytes : List Nat)
  | failEarly
  | failMid (part : List Nat)
  deriving DecidableEq

/-! ### `KodiController.GetThumbnail` -/

/-- `KodiController.GetThumbnail(thumbnail)`, with the filesystem passed
explicitly and the response of the single `requests.get` supplied as
`fo`.  Returns the result (or raised exception), the new filesystem, and
the trace of filesystem/network operations performed. -/
def getThumbnail (s : Session) (fs : FS) (fo : FetchOutcome)
    (thumbnail : String) : Except PyError String × FS × List Effect :=
  match s.cacheDir, s.auth with
  | some cacheDir, some _ =>
      let t := stripSlashes thumbnail
      let ext := splitextExt t
      if ext = ".jpg" ∨ ext = ".png" then
        let digest := md5hex t
        let imgPath := cacheDir ++ "/" ++ digest
        if fs.existsPath imgPath then
          (.ok digest, fs, [.existsCheck imgPath])
        else
          let e1 : List Effect := [.existsCheck imgPath, .existsCheck cacheDir]
          let step : FS × List Effect :=
            if fs.existsPath cacheDir then (fs, e1)
            else (⟨fs.files, cacheDir :: fs.dirs⟩, e1 ++ [.mkdir cacheDir])
          let fs1 := step.1
          let e2 := step.2 ++ [.isDirCheck cacheDir]
          if fs1.isDir cacheDir then
            match s.server with
            | none => (.error .attributeError, fs1, e2)
            | some srv =>
                let url := srv.url ++ "image/" ++ quotePlus t
                match fo with
                | .failEarly => (.error .fetchError, fs1, e2 ++ [.fetch url])
                | .failMid part =>
                    (.error .fetchError, fs1.writeFile imgPath part,
                      e2 ++ [.fetch url, .write imgPath])
                | .ok bytes =>
                    (.ok digest, fs1.writeFile imgPath bytes,
                      e2 ++ [.fetch url, .write imgPath])
          else (.error .cacheDirNotDir, fs1, e2)
      else (.ok "", fs, [])
  | _, _ => (.ok "", fs, [])

/-! ### `KodiController.GetResumePercent` (the resume normalizer) -/

/-- The `resume` sub-dictionary of a media record.  Each field is `none`
when the corresponding key is absent.  Numeric values are modelled as
exact rationals. -/
structure ResumeObj where
  total : Option Rat
  position : Option Rat
  percentage : Option Rat
  deriving DecidableEq

/-- The fields of a media record that `GetResumePercent` reads or writes.
`none` models an absent key. -/
structure MediaRecord where
  resume : Option ResumeObj
  watchedepisodes : Option Int
  episode : Option Int
  deriving DecidableEq

/-- The local variables `maxValue` / `currentValue` of `GetResumePercent`.
They live for the whole loop, so a later iteration can observe a value left
by an earlier one; `none` models "never assigned" (reading it raises
`UnboundLocalError`). -/
structure NormState where
  maxValue : Option Rat
  currentValue : Option Rat
  deriving DecidableEq

/-- Write `item['resume']['percentage'] = v`.  All callers have ensured
`item['resume']` exists, so the `none` branch is unreachable. -/
def setPercentage (item : MediaRecord) (v : Rat) : MediaRecord :=
  match item.resume with
  | some r => { item with resume := some { r with percentage := some v } }
  | none => item

/-- First phase of one loop iteration of `GetResumePercent`: the
`try/except/else` around reading the record's fields.  Returns the updated
variable state, the (possibly mutated) record, and a pending exception that
the `finally` block will re-raise if it itself completes normally. -/
def normReadPhase (st : NormState) (item : MediaRecord) :
    NormState × MediaRecord × Option PyError :=
  match item.resume with
  | some r =>
      match r.total with
      | none => (st, item, some .keyError)
      | some t =>
          match r.position with
          | none => ({ st with maxValue := some t }, item, some .keyError)
          | some p => (⟨some t, some p⟩, item, none)
  | none =>
      match item.watchedepisodes, item.episode with
      | some w, some e =>
          (⟨some (e : Rat), some (w : Rat)⟩,
           { item with resume := some ⟨none, none, none⟩ }, none)
      | some w, none =>
          (⟨some 0, some (w : Rat)⟩,
           { item with resume := some ⟨none, none, none⟩ }, none)
      | none, _ =>
          ({ st with maxValue := some 0 },
           { item with resume := some ⟨none, none, none⟩ }, none)

/-- One loop iteration of `GetResumePercent` over a single record: the read
phase followed by the `finally` block, which computes the percentage and
stores it on the record.  An exception raised inside `finally`
(`UnboundLocalError` from an unassigned loop variable) replaces any pending
exception; otherwise a pending exception is re-raised after the `finally`
block has run. -/
def normStep (st : NormState) (item : MediaRecord) :
    Except PyError (NormState × MediaRecord) :=
  let ph := normReadPhase st item
  let st' := ph.1
  let item' := ph.2.1
  let pending := ph.2.2
  match st'.maxValue with
  | none => .error .unboundLocal
  | some m =>
      if m = 0 then
        match pending with
        | some e => .error e
        | none => .ok (st', setPercentage item' 0)
      else
        match st'.currentValue with
        | none => .error .unboundLocal
        | some c =>
            match pending with
            | some e => .error e
            | none => .ok (st', setPercentage item' (100 * c / m))

/-- The loop of `GetResumePercent`, threading the loop-variable state. -/
def normLoop : NormState → List MediaRecord → Except PyError (List MediaRecord)
  | _, [] => .ok []
  | st, item :: rest =>
      match normStep st item with
      | .error e => .error e
      | .ok (st', item') => (normLoop st' rest).map (item' :: ·)

/-- `KodiController.GetResumePercent(resumeList)`: normalize every record,
starting with both loop variables unassigned. -/
def getResumePercent (items : List MediaRecord) :
    Except PyError (List MediaRecord) :=
  normLoop ⟨none, none⟩ items

/-- The unified percentage after normalization, when present. -/
def MediaRecord.resumePercentage (r : MediaRecord) : Option Rat :=
  match r.resume with
  | some ro => ro.percentage
  | none => none

/-! ### Decorators and the command layer -/

/-- The `CheckServerValid` decorator: on an unbound session return `None`
without invoking the wrapped function. -/
def checkServerValid (s : Session) (body : Server → α) : Option α :=
  match s.server with
  | none => none
  | some srv => some (body srv)

/-- What a command wrapped by `GetActivePlayer` hands back: `{}` when no
active player could be resolved, otherwise the wrapped function's result. -/
inductive PlayerResult (α : Type)
  | emptyDict
  | result (a : α)
  deriving DecidableEq

/-- The body of the `GetActivePlayer` decorator's `try`:
`self.server.Player.GetActivePlayers()[0]['playerid']`, with every
exception (transport failure, `IndexError` on an empty list) caught. -/
def getActivePlayerId (resp : Except PyError (List Nat)) : Option Nat :=
  match resp with
  | .error _ => none
  | .ok [] => none
  | .ok (pid :: _) => some pid

/-- A command wrapped by the `GetActivePlayer` decorator (itself wrapped by
`CheckServerValid`), e.g. `Player_GetItem`, `Player_PlayPause`,
`Player_Stop`.  `resp` is the outcome of the active-players query and `cmd`
the underlying server command.  Returns the call's result (`none` for the
unbound-session `None`) and whether `cmd` was invoked. -/
def runActivePlayerCmd (s : Session) (resp : Except PyError (List Nat))
    (cmd : Nat → α) : Option (PlayerResult α) × Bool :=
  match s.server with
  | none => (none, false)
  | some _ =>
      match getActivePlayerId resp with
      | none => (some .emptyDict, false)
      | some pid => (some (.result (cmd pid)), true)

/-- One entry of the `Playlist.GetPlaylists` response. -/
structure PlaylistEntry where
  type : String
  playlistid : Nat
  deriving DecidableEq

/-- The loop of the `GetPlaylists` decorator: `playlist_id` is assigned on
every matching entry (so the last match wins) and is never initialized
before the loop; `none` means it was never assigned. -/
def resolvePlaylistId (resp : List PlaylistEntry) (playlistType : String) :
    Option Nat :=
  resp.foldl
    (fun acc pl => if pl.type = playlistType then some pl.playlistid else acc)
    none

/-- A command wrapped by the `GetPlaylists` decorator (itself wrapped by
`CheckServerValid`), e.g. `Player_Open`, `Playlist_Add`.  When no entry of
the response matches the requested type, reading the unassigned
`playlist_id` raises `UnboundLocalError`.  Returns the outcome (`.ok none`
for the unbound-session `None`) and whether `cmd` was invoked. -/
def runPlaylistCmd (s : Session) (resp : List PlaylistEntry)
    (playlistType : String) (cmd : Nat → α) :
    Except PyError (Option α) × Bool :=
  match s.server with
  | none => (.ok none, false)
  | some _ =>
      match resolvePlaylistId resp playlistType with
      | none => (.error .unboundLocal, false)
      | some pid => (.ok (some (cmd pid)), true)

/-- `KodiController.Files_GetDirectory(directory)`.  It carries no
decorator, so on an unbound session the attribute access
`self.server.Files` raises `AttributeError`.  `resp` is the `files` field
of the transport's response (`none` models an absent key, whose `KeyError`
is caught and turned into `[]`). -/
def files_GetDirectory (s : Session) (resp : Option (List String)) :
    Except PyError (List String) :=
  match s.server with
  | none => .error .attributeError
  | some _ =>
      match resp with
      | some files => .ok files
      | none => .ok []

/-- A session whose transport was never bound (`KodiController()` with no
host). -/
def unboundSession : Session := ⟨none, none, none⟩

/-- A session with a bound transport, credentials and a cache directory. -/
def boundSession : Session :=
  ⟨some ⟨"http://host:8080/jsonrpc/"⟩, some ("user", "pwd"), some "cache"⟩

end Kodi

open Kodi

/-- Helper: a leading '/' is removed by the strip. -/
theorem stripSlashList_cons_slash (l : List Char) :
    stripSlashList ('/' :: l) = stripSlashList l := by
  simp [stripSlashList, List.dropWhile_cons, isSlash]

/-- Helper: a trailing '/' is removed by the strip. -/
theorem stripSlashList_append_slash (l : List Char) :
    stripSlashList (l ++ ['/']) = stripSlashList l := by
  unfold stripSlashList
  rw [List.dropWhile_append]
  by_cases h : (l.dropWhile isSlash).isEmpty
  · rw [List.isEmpty_iff] at h
    simp [h, List.dropWhile, isSlash]
  · simp only [h, if_false]
    simp [List.reverse_append, List.dropWhile_cons, isSlash]

/-- Helper: `stripSlashes` ignores a leading '/'. -/
theorem stripSlashes_slash_append (r : String) :
    stripSlashes ("/" ++ r) = stripSlashes r := by
  have h : ("/" ++ r).data = '/' :: r.data := by
    rw [String.data_append "/" r]; rfl
  simp [stripSlashes, h, stripSlashList_cons_slash]

/-- Helper: `stripSlashes` ignores a trailing '/'. -/
theorem stripSlashes_append_slash (r : String) :
    stripSlashes (r ++ "/") = stripSlashes r := by
  have h : (r ++ "/").data = r.data ++ ['/'] := by
    rw [String.data_append r "/"]
  simp [stripSlashes, h, stripSlashList_append_slash]

/-- Helper: `GetThumbnail` reads its argument only through `stripSlashes`. -/
theorem getThumbnail_strip_congr (s : Session) (fs : FS) (fo : FetchOutcome)
    {a b : String} (h : stripSlashes a = stripSlashes b) :
    getThumbnail s fs fo a = getThumbnail s fs fo b := by
  unfold getThumbnail
  rw [h]

/-- Claim C10: `GetThumbnail` strips leading and trailing '/' characters
from the reference before the extension check and before hashing, so for
every reference `r` the calls on `r`, `"/" ++ r` and `r ++ "/"` return the
same identifier, perform the same operations, and leave the same
filesystem — references differing only in surrounding slashes collide onto
one cache entry. -/
theorem getThumbnail_slash_invariant (s : Session) (fs : FS)
    (fo : FetchOutcome) (r : String) :
    getThumbnail s fs fo ("/" ++ r) = getThumbnail s fs fo r ∧
    getThumbnail s fs fo (r ++ "/") = getThumbnail s fs fo r :=
  ⟨getThumbnail_strip_congr s fs fo (stripSlashes_slash_append r),
   getThumbnail_strip_congr s fs fo (stripSlashes_append_slash r)⟩

/-- Claim C9: for every reference whose stripped form has no recognized
image extension ('.jpg' or '.png'), `GetThumbnail` returns the empty
identifier, leaves the filesystem unchanged, and performs zero filesystem
and zero network operations (empty effect trace). -/
theorem getThumbnail_nonImage_noEffects (s : Session) (fs : FS)
    (fo : FetchOutcome) (r : String)
    (h : ¬(splitextExt (stripSlashes r) = ".jpg" ∨
           splitextExt (stripSlashes r) = ".png")) :
    getThumbnail s fs fo r = (.ok "", fs, []) := by
  rcases s with ⟨srv, auth, cacheDir⟩
  cases cacheDir <;> cases auth <;> simp [getThumbnail, h]

/-- Witness for C9 at the reference "http://host/file.txt". -/
theorem getThumbnail_nonImage_noEffects_witness :
    (¬(splitextExt (stripSlashes "http://host/file.txt") = ".jpg" ∨
       splitextExt (stripSlashes "http://host/file.txt") = ".png")) ∧
    getThumbnail boundSession ⟨[], []⟩ (.ok [1]) "http://host/file.txt" =
      (.ok "", ⟨[], []⟩, []) :=
  ⟨by decide, getThumbnail_nonImage_noEffects boundSession ⟨[], []⟩ (.ok [1])
    "http://host/file.txt" (by decide)⟩

/-- Claim C8: on a session with bound transport, credentials and a cache
directory `d` holding no files, resolving "http://host/image/foo.jpg" with
a successful byte fetch `B` creates exactly one cache file, at
`d ++ "/" ++` the md5 hex digest of the reference, containing exactly the
fetched bytes, and returns that digest string — which is the concrete md5
value "200f48c2e45a9711d75511fa39f75d12". -/
theorem getThumbnail_cacheMiss_scenario (srv : Server) (u pw d : String)
    (B : List Nat) :
    getThumbnail ⟨some srv, some (u, pw), some d⟩ ⟨[], []⟩ (.ok B)
        "http://host/image/foo.jpg" =
      (.ok (md5hex "http://host/image/foo.jpg"),
        ⟨[(d ++ "/" ++ md5hex "http://host/image/foo.jpg", B)], [d]⟩,
        [.existsCheck (d ++ "/" ++ md5hex "http://host/image/foo.jpg"),
         .existsCheck d, .mkdir d, .isDirCheck d,
         .fetch (srv.url ++ "image/" ++ quotePlus "http://host/image/foo.jpg"),
         .write (d ++ "/" ++ md5hex "http://host/image/foo.jpg")]) ∧
    md5hex "http://host/image/foo.jpg" = "200f48c2e45a9711d75511fa39f75d12" := by
  have hstrip : stripSlashes "http://host/image/foo.jpg" =
      "http://host/image/foo.jpg" := by decide
  constructor
  · simp [getThumbnail, FS.existsPath, FS.isDir, FS.writeFile, hstrip]
    exact fun hne => absurd
      (show splitextExt "http://host/image/foo.jpg" = ".jpg" from by decide) hne
  · decide

/-- Claim C3 (code bug): on a cache miss where the streamed fetch fails
after two bytes were written, `GetThumbnail` raises but leaves the
partially-written file at the digest-named path; a subsequent call then
treats that partial file as a valid cache entry (returns the digest with
no fetch).  The on-disk cache is NOT as if the failed call had not
happened, contradicting the claim's atomicity requirement. -/
theorem getThumbnail_midFetchFailure_leavesFile :
    getThumbnail boundSession ⟨[], []⟩ (.failMid [7, 7])
        "http://host/image/foo.jpg" =
      (.error .fetchError,
        ⟨[("cache/" ++ md5hex "http://host/image/foo.jpg", [7, 7])], ["cache"]⟩,
        [.existsCheck ("cache/" ++ md5hex "http://host/image/foo.jpg"),
         .existsCheck "cache", .mkdir "cache", .isDirCheck "cache",
         .fetch ("http://host:8080/jsonrpc/image/" ++
           quotePlus "http://host/image/foo.jpg"),
         .write ("cache/" ++ md5hex "http://host/image/foo.jpg")]) ∧
    getThumbnail boundSession
        ⟨[("cache/" ++ md5hex "http://host/image/foo.jpg", [7, 7])], ["cache"]⟩
        .failEarly "http://host/image/foo.jpg" =
      (.ok (md5hex "http://host/image/foo.jpg"),
        ⟨[("cache/" ++ md5hex "http://host/image/foo.jpg", [7, 7])], ["cache"]⟩,
        [.existsCheck ("cache/" ++ md5hex "http://host/image/foo.jpg")]) := by
  constructor <;> decide

/-- Claim C1 (code bug): on a bound session, when no entry of the playlist
enumeration matches the requested media type, the `GetPlaylists` wrapper
raises `UnboundLocalError` from the never-assigned loop variable — it does
not invoke the wrapped command with a stale or uninitialized id (invoked
flag is `false`), but it also does not fail with the `NotFound` error the
claim requires. -/
theorem playlistCmd_noMatch_raises :
    runPlaylistCmd boundSession [⟨"audio", 0⟩, ⟨"picture", 1⟩] "video"
        (fun i => i) = (.error .unboundLocal, false) ∧
    PyError.unboundLocal ≠ PyError.notFound :=
  ⟨rfl, by decide⟩

/-- Claim C2: on a session with a bound transport, if the active-players
query reports zero active players or fails for any reason, a command
wrapped with the `GetActivePlayer` decorator returns the empty dictionary
without raising and without invoking the underlying server command. -/
theorem activePlayerCmd_noTarget_empty {α : Type} (s : Session) (srv : Server)
    (resp : Except PyError (List Nat)) (cmd : Nat → α)
    (hs : s.server = some srv)
    (h : resp = .ok [] ∨ ∃ e, resp = .error e) :
    runActivePlayerCmd s resp cmd = (some .emptyDict, false) := by
  rcases s with ⟨sv, auth, cache⟩
  cases hs
  rcases h with h | ⟨e, h⟩ <;> subst h <;> rfl

/-- Witness for C2: a bound session against a zero-player response. -/
theorem activePlayerCmd_noTarget_empty_witness :
    boundSession.server = some ⟨"http://host:8080/jsonrpc/"⟩ ∧
    runActivePlayerCmd boundSession (.ok ([] : List Nat)) (fun i : Nat => i) =
      (some .emptyDict, false) :=
  ⟨rfl, activePlayerCmd_noTarget_empty boundSession ⟨"http://host:8080/jsonrpc/"⟩
    (.ok []) (fun i => i) rfl (.inl rfl)⟩

/-- Claim C4 (code bug): `Files_GetDirectory` carries no `CheckServerValid`
decorator, so on an unbound session it raises `AttributeError` instead of
returning the defined no-op outcome that decorated operations return
(`checkServerValid` yields `None` on the same session). -/
theorem files_GetDirectory_unbound_faults :
    files_GetDirectory unboundSession (some ["movies"]) =
      .error .attributeError ∧
    checkServerValid unboundSession (fun _ => (0 : Nat)) = none :=
  ⟨rfl, rfl⟩

/-- Claim C5: for a record carrying a `resume` sub-object with numeric
`total` T and `position` P, one normalizer step succeeds (never raises;
division is guarded so no infinity or NaN can arise) and sets
`resume.percentage` to `100 * P / T` when `T > 0` and to `0` when `T = 0`
regardless of P — for every incoming loop-variable state. -/
theorem normStep_resume_percentage (st : NormState) (rec : MediaRecord)
    (T P : Rat) (pc : Option Rat)
    (hres : rec.resume = some ⟨some T, some P, pc⟩) :
    ∃ rec', normStep st rec = .ok (⟨some T, some P⟩, rec') ∧
      (0 < T → rec'.resumePercentage = some (100 * P / T)) ∧
      (T = 0 → rec'.resumePercentage = some 0) := by
  refine ⟨setPercentage rec (if T = 0 then 0 else 100 * P / T), ?_, ?_, ?_⟩
  · by_cases hT : T = 0 <;>
      simp [normStep, normReadPhase, hres, hT]
  · intro hT
    simp [setPercentage, hres, MediaRecord.resumePercentage, hT.ne']
  · intro hT
    simp [setPercentage, hres, MediaRecord.resumePercentage, hT]

/-- Witness for C5 at the record with total 200 and position 50. -/
theorem normStep_resume_percentage_witness :
    (⟨some ⟨some 200, some 50, none⟩, none, none⟩ : MediaRecord).resume =
      some ⟨some 200, some 50, none⟩ ∧
    ∃ rec', normStep ⟨none, none⟩ ⟨some ⟨some 200, some 50, none⟩, none, none⟩ =
        .ok (⟨some 200, some 50⟩, rec') ∧
      ((0 : Rat) < 200 → rec'.resumePercentage = some (100 * 50 / 200)) ∧
      ((200 : Rat) = 0 → rec'.resumePercentage = some 0) :=
  ⟨rfl, normStep_resume_percentage ⟨none, none⟩ _ 200 50 none rfl⟩

/-- Claim C6: for a record with no `resume` key but with `watchedepisodes`
W and `episode` E counters, one normalizer step succeeds, attaches a
synthesized `resume` sub-object to the record, and sets its `percentage`
to `100 * W / E` when `E > 0` and to `0` when `E = 0`. -/
theorem normStep_counters_percentage (st : NormState) (rec : MediaRecord)
    (W E : Int) (hres : rec.resume = none)
    (hw : rec.watchedepisodes = some W) (he : rec.episode = some E) :
    ∃ v, normStep st rec = .ok (⟨some (E : Rat), some (W : Rat)⟩,
        { rec with resume := some ⟨none, none, some v⟩ }) ∧
      (0 < E → v = 100 * (W : Rat) / (E : Rat)) ∧
      (E = 0 → v = 0) := by
  refine ⟨if (E : Rat) = 0 then 0 else 100 * (W : Rat) / (E : Rat), ?_, ?_, ?_⟩
  · by_cases hE : (E : Rat) = 0 <;>
      simp [normStep, normReadPhase, hres, hw, he, setPercentage, hE]
  · intro hE
    have : (E : Rat) ≠ 0 := by exact_mod_cast hE.ne'
    simp [this]
  · intro hE
    simp [hE]

/-- Witness for C6 at a record with 3 of 4 episodes watched. -/
theorem normStep_counters_percentage_witness :
    (⟨none, some 3, some 4⟩ : MediaRecord).resume = none ∧
    ∃ v, normStep ⟨none, none⟩ ⟨none, some 3, some 4⟩ =
        .ok (⟨some ((4 : Int) : Rat), some ((3 : Int) : Rat)⟩,
          ⟨some ⟨none, none, some v⟩, some 3, some 4⟩) ∧
      ((0 : Int) < 4 → v = 100 * ((3 : Int) : Rat) / ((4 : Int) : Rat)) ∧
      ((4 : Int) = 0 → v = 0) :=
  ⟨rfl, normStep_counters_percentage ⟨none, none⟩ ⟨none, some 3, some 4⟩
    3 4 rfl rfl rfl⟩

/-- Counterexample to C7: a record whose `resume` sub-object is present but
lacks the `total` key makes `GetResumePercent` raise (the `finally` block
reads the never-assigned `maxValue`, raising `UnboundLocalError`, which
supersedes the pending `KeyError`) — the claim says such malformed records
are absorbed without raising. -/
theorem getResumePercent_emptyResume_raises :
    getResumePercent [⟨some ⟨none, none, none⟩, none, none⟩] =
      .error .unboundLocal := by decide

/-- Claim C7 as amended: for every record lacking the `resume` key
(whatever the state of its episode counters), one normalizer step does not
raise: the record is absorbed into the no-progress branch and afterwards
carries a `resume` object with `percentage` present, equal to 0 when
either counter is missing.  (A record whose `resume` sub-object lacks
`total` or `position` instead makes the normalizer raise.) -/
theorem normStep_noResumeKey_absorbed (st : NormState) (rec : MediaRecord)
    (hres : rec.resume = none) :
    ∃ st' v, normStep st rec =
        .ok (st', { rec with resume := some ⟨none, none, some v⟩ }) ∧
      ((rec.watchedepisodes = none ∨ rec.episode = none) → v = 0) := by
  rcases hw : rec.watchedepisodes with _ | W
  · exact ⟨⟨some 0, st.currentValue⟩, 0,
      by simp [normStep, normReadPhase, hres, hw, setPercentage], fun _ => rfl⟩
  · rcases he : rec.episode with _ | E
    · exact ⟨⟨some 0, some (W : Rat)⟩, 0,
        by simp [normStep, normReadPhase, hres, hw, he, setPercentage],
        fun _ => rfl⟩
    · refine ⟨⟨some (E : Rat), some (W : Rat)⟩,
        if (E : Rat) = 0 then 0 else 100 * (W : Rat) / (E : Rat), ?_, ?_⟩
      · by_cases hE : (E : Rat) = 0 <;>
          simp [normStep, normReadPhase, hres, hw, he, setPercentage, hE]
      · rintro (h | h) <;> simp [hw, he] at h

/-- Witness for amended C7 at a record with only an `episode` counter. -/
theorem normStep_noResumeKey_absorbed_witness :
    (⟨none, none, some 5⟩ : MediaRecord).resume = none ∧
    ∃ st' v, normStep ⟨none, none⟩ ⟨none, none, some 5⟩ =
        .ok (st', ⟨some ⟨none, none, some v⟩, none, some 5⟩) ∧
      (((⟨none, none, some 5⟩ : MediaRecord).watchedepisodes = none ∨
        (⟨none, none, some 5⟩ : MediaRecord).episode = none) → v = 0) :=
  ⟨rfl, normStep_noResumeKey_absorbed ⟨none, none⟩ ⟨none, none, some 5⟩ rfl⟩
